import Mathlib

/-!
Shallow embedding of the JWT authentication subsystem of the repository
(src/api/core/security.py, src/api/core/auth.py, src/api/core/exceptions.py,
src/api/middleware/error_handler.py), together with proofs of the spec's
claims about it.

Conventions of the embedding:
* Python `str` values are modelled as lists of Unicode code points
  (`List Nat`); Python `bytes` values as lists of byte values (`List Nat`).
* Machine-level cryptography (bcrypt's key derivation, RSA signatures) is
  modelled algebraically: a deterministic function of its inputs for bcrypt,
  and key-identifier matching for RSA signatures (a signature made with
  private key `k` verifies exactly against public key `k`).  No claim in
  scope depends on finer structure of these primitives.
* Exceptions are modelled as `Except` results; the distinct Python exception
  classes that the code raises or catches are distinct constructors.
-/

deriving instance DecidableEq for Except

/-! ## Python string/bytes primitives -/

/-- UTF-8 encoding of a single Unicode code point (standard 1–4 byte forms),
as performed by Python's `str.encode("utf-8")`. -/
def utf8EncodeChar (c : Nat) : List Nat :=
  if c < 0x80 then [c]
  else if c < 0x800 then [0xC0 + c / 64, 0x80 + c % 64]
  else if c < 0x10000 then
    [0xE0 + c / 4096, 0x80 + (c / 64) % 64, 0x80 + c % 64]
  else
    [0xF0 + c / 262144, 0x80 + (c / 4096) % 64, 0x80 + (c / 64) % 64, 0x80 + c % 64]

/-- UTF-8 encoding of a Python string (list of code points), i.e.
`s.encode("utf-8")`. -/
def utf8Encode (s : List Nat) : List Nat :=
  (s.map utf8EncodeChar).flatten

/-- Whether a byte is a UTF-8 continuation byte (0x80–0xBF). -/
def isCont (b : Nat) : Bool :=
  0x80 ≤ b && b ≤ 0xBF

/-- UTF-8 decoding with `errors="ignore"`, i.e. Python's
`bytes.decode("utf-8", errors="ignore")`: well-formed sequences decode to
their code point, ill-formed bytes are dropped (after a valid prefix of a
multi-byte sequence, decoding resumes at the first offending byte, matching
CPython's maximal-subpart error handling); a truncated sequence at the end of
the input is dropped. -/
def utf8DecodeIgnore : List Nat → List Nat
  | [] => []
  | b :: rest =>
    if b < 0x80 then b :: utf8DecodeIgnore rest
    else if 0xC2 ≤ b && b ≤ 0xDF then
      -- two-byte sequence
      match rest with
      | [] => []
      | b2 :: rest2 =>
        if isCont b2 then ((b - 0xC0) * 64 + (b2 - 0x80)) :: utf8DecodeIgnore rest2
        else utf8DecodeIgnore (b2 :: rest2)
    else if 0xE0 ≤ b && b ≤ 0xEF then
      -- three-byte sequence; the valid range of the second byte depends on
      -- the lead byte (excludes overlong forms and surrogates)
      match rest with
      | [] => []
      | b2 :: rest2 =>
        if (if b = 0xE0 then 0xA0 ≤ b2 && b2 ≤ 0xBF
            else if b = 0xED then 0x80 ≤ b2 && b2 ≤ 0x9F
            else isCont b2) then
          match rest2 with
          | [] => []
          | b3 :: rest3 =>
            if isCont b3 then
              ((b - 0xE0) * 4096 + (b2 - 0x80) * 64 + (b3 - 0x80)) :: utf8DecodeIgnore rest3
            else utf8DecodeIgnore (b3 :: rest3)
        else utf8DecodeIgnore (b2 :: rest2)
    else if 0xF0 ≤ b && b ≤ 0xF4 then
      -- four-byte sequence; second-byte range again depends on the lead byte
      match rest with
      | [] => []
      | b2 :: rest2 =>
        if (if b = 0xF0 then 0x90 ≤ b2 && b2 ≤ 0xBF
            else if b = 0xF4 then 0x80 ≤ b2 && b2 ≤ 0x8F
            else isCont b2) then
          match rest2 with
          | [] => []
          | b3 :: rest3 =>
            if isCont b3 then
              match rest3 with
              | [] => []
              | b4 :: rest4 =>
                if isCont b4 then
                  ((b - 0xF0) * 262144 + (b2 - 0x80) * 4096 + (b3 - 0x80) * 64 + (b4 - 0x80))
                    :: utf8DecodeIgnore rest4
                else utf8DecodeIgnore (b4 :: rest4)
            else utf8DecodeIgnore (b3 :: rest3)
        else utf8DecodeIgnore (b2 :: rest2)
    else
      -- lone continuation byte, overlong lead (0xC0/0xC1) or byte > 0xF4
      utf8DecodeIgnore rest

/-- ASCII whitespace stripped by Python's `int(str)` conversion. -/
def isPySpace (c : Nat) : Bool :=
  c = 32 || c = 9 || c = 10 || c = 11 || c = 12 || c = 13

/-- Digit run with optional single underscores between digits, accumulating a
value, as accepted inside a Python integer literal string. -/
def pyDigitsAux (acc : Nat) : List Nat → Option Nat
  | [] => some acc
  | c :: rest =>
    if 48 ≤ c && c ≤ 57 then pyDigitsAux (acc * 10 + (c - 48)) rest
    else if c = 95 then
      match rest with
      | [] => none
      | d :: rest2 =>
        if 48 ≤ d && d ≤ 57 then pyDigitsAux (acc * 10 + (d - 48)) rest2 else none
    else none

/-- Nonempty digit run (underscores allowed between digits). -/
def pyDigits : List Nat → Option Nat
  | [] => none
  | c :: rest => if 48 ≤ c && c ≤ 57 then pyDigitsAux (c - 48) rest else none

/-- Python's `int(s)` for a string `s` (code points): optional surrounding
whitespace, optional sign, then a nonempty digit run with optional single
underscores between digits.  `none` models the `ValueError` that `int`
raises on any other input. -/
def pyInt (s : List Nat) : Option Int :=
  let t := ((s.dropWhile isPySpace).reverse.dropWhile isPySpace).reverse
  match t with
  | [] => none
  | c :: rest =>
    if c = 43 then (pyDigits rest).map (fun n => (n : Int))
    else if c = 45 then (pyDigits rest).map (fun n => -(n : Int))
    else (pyDigits t).map (fun n => (n : Int))

/-! ## Password hashing (security.py lines 18–33)

`pwd_context = CryptContext(schemes=["bcrypt"], deprecated="auto")` is
passlib.  A stored hash in the source is a string; passlib first identifies
the string against the configured schemes, so we model a stored-hash string
by the outcome of that identification: either a well-formed bcrypt record, or
an unidentified raw string.  Per passlib's documented contract,
`CryptContext.verify` raises `UnknownHashError` (a `ValueError`) when the
hash string cannot be identified; it does not return `False` in that case. -/

/-- The contents of a well-formed bcrypt hash string: cost factor, salt, and
the bcrypt key-derivation output.  bcrypt's key derivation is modelled as the
abstract deterministic function `bcryptKdf` of (secret, salt, cost); only its
determinism is used by any theorem. -/
structure BcryptRecord where
  cost : Nat
  salt : Nat
  digest : List Nat
  deriving DecidableEq, Repr

/-- bcrypt key derivation, modelled as an injective deterministic function of
its inputs (its cryptographic structure is irrelevant to the claims). -/
def bcryptKdf (secret : List Nat) (salt cost : Nat) : List Nat :=
  salt :: cost :: secret

/-- A stored password-hash string, classified by passlib's scheme
identification: a well-formed bcrypt hash, or any other string. -/
inductive StoredHash where
  | bcrypt (r : BcryptRecord)
  | unidentified (raw : String)
  deriving DecidableEq, Repr

/-- Errors raised by passlib's `CryptContext`:
`UnknownHashError` (subclass of `ValueError`) when the stored hash string
matches no configured scheme. -/
inductive PasslibError where
  | unknownHash
  deriving DecidableEq, Repr

/-- passlib `pwd_context.hash(secret)`: salted bcrypt hash of the secret's
UTF-8 bytes.  passlib generates the salt and uses a default cost internally;
the embedding exposes them as explicit `salt`/`cost` arguments. -/
def pwdContextHash (secret : List Nat) (salt cost : Nat) : StoredHash :=
  .bcrypt ⟨cost, salt, bcryptKdf (utf8Encode secret) salt cost⟩

/-- passlib `pwd_context.verify(secret, hash)`: identify the stored hash,
then recompute the digest with the stored salt/cost and compare.  Raises
`UnknownHashError` when the stored hash cannot be identified. -/
def pwdContextVerify (secret : List Nat) (h : StoredHash) : Except PasslibError Bool :=
  match h with
  | .bcrypt r => .ok (decide (bcryptKdf (utf8Encode secret) r.salt r.cost = r.digest))
  | .unidentified _ => .error .unknownHash

/-- security.py `hash_password` (lines 22–26): truncate the password's UTF-8
bytes to 72 bytes, decode them back with `errors="ignore"`, and hash the
result with `pwd_context.hash`. -/
def hash_password (password : List Nat) (salt cost : Nat) : StoredHash :=
  let password_bytes := (utf8Encode password).take 72
  pwdContextHash (utf8DecodeIgnore password_bytes) salt cost

/-- security.py `verify_password` (lines 29–33): truncate the plaintext the
same way and call `pwd_context.verify`.  There is no exception handling in
the source, so a passlib error propagates to the caller. -/
def verify_password (plain_password : List Nat) (hashed_password : StoredHash) :
    Except PasslibError Bool :=
  let password_bytes := (utf8Encode plain_password).take 72
  pwdContextVerify (utf8DecodeIgnore password_bytes) hashed_password

/-! ## JWT tokens (PyJWT) and the key files

RSA keys are modelled by a key identifier `Nat`: the decrypted private key
material for pair `k` signs tokens that verify exactly against the public key
material for pair `k` (the standard idealisation of a signature scheme).  The
contents of a key file on disk are one of: a passphrase-encrypted PKCS#8
private key for some pair, a public key for some pair, or bytes that do not
deserialize. -/

/-- The contents of a key file. -/
inductive FileContent where
  | privatePem (keyId : Nat) (passphrase : String)
  | publicPem (keyId : Nat)
  | corrupt
  deriving DecidableEq, Repr

/-- The filesystem: maps a path to the contents of the file there, `none`
when no file exists at the path. -/
def FileSystem := String → Option FileContent

/-- cryptography's `serialization.load_pem_private_key(data, password)`:
succeeds exactly on an encrypted private-key PEM whose passphrase matches;
raises `ValueError` (modelled as `.error ()`) on a wrong password or on bytes
that are not an encrypted private key. -/
def load_pem_private_key (content : FileContent) (password : String) : Except Unit Nat :=
  match content with
  | .privatePem k kpw => if kpw = password then .ok k else .error ()
  | _ => .error ()

/-- A decoded JWT payload.  The three claims the system writes; each is
optional because `decode_token` also accepts third-party tokens that omit
claims (PyJWT only validates the claims that are present). -/
structure TokenPayload where
  sub : Option (List Nat)
  iat : Option Nat
  exp : Option Nat
  deriving DecidableEq, Repr

/-- An encoded JWT string: either a well-formed three-part JWS signed by the
private key of pair `keyId`, or any string that is not a well-formed JWS. -/
inductive EncodedToken where
  | signed (payload : TokenPayload) (keyId : Nat)
  | malformed (raw : String)
  deriving DecidableEq, Repr

/-- PyJWT exceptions raised by `jwt.decode`:
`ExpiredSignatureError` and the `InvalidTokenError` family (which
`ExpiredSignatureError` also belongs to; the two are nevertheless separate
catchable classes), plus `InvalidKeyError`, which is NOT a subclass of
`InvalidTokenError` and is therefore not caught by an
`except jwt.InvalidTokenError` clause. -/
inductive JwtError where
  | expiredSignature
  | invalidToken
  | invalidKey
  deriving DecidableEq, Repr

/-- PyJWT `jwt.decode(token, key, algorithms=["RS256"])` at current time
`now` (seconds): deserialize the verification key, verify the signature, then
validate the `exp` claim when present (`exp <= now` with zero leeway raises
`ExpiredSignatureError`).  No claim is required by default, so a missing
`sub` does not fail. -/
def jwtDecode (token : EncodedToken) (key : FileContent) (now : Nat) :
    Except JwtError TokenPayload :=
  match key with
  | .publicPem k =>
    match token with
    | .malformed _ => .error .invalidToken
    | .signed p k2 =>
      if k2 = k then
        match p.exp with
        | some e => if e ≤ now then .error .expiredSignature else .ok p
        | none => .ok p
      else .error .invalidToken
  | _ => .error .invalidKey

/-- Errors of `JWTManager` key loading (security.py lines 53–103):
`FileNotFoundError` when a key file is missing; `ValueError` with the
missing-passphrase message when neither the constructor argument nor the
`JWT_PRIVATE_KEY_PASSWORD` environment variable supplies a passphrase;
`ValueError` with the failed-to-decrypt message when
`load_pem_private_key` fails.  The latter two are both `ValueError`
instances in Python but carry distinct messages; all three are distinct
failure kinds. -/
inductive KeyLoadError where
  | keyNotFound
  | missingPassphrase
  | keyDecryptionFailed
  deriving DecidableEq, Repr

/-- Filesystem / key-store operations performed by key loading, recorded so
that per-process cost can be stated. -/
inductive Effect where
  | readFile (path : String)
  | decryptPrivateKey
  deriving DecidableEq, Repr

/-- security.py `JWTManager` state after `__init__`: the decrypted private
key material and the raw bytes read from the public key file. -/
structure JWTManager where
  private_key : Nat
  public_key : FileContent
  deriving DecidableEq, Repr

namespace JWTManager

/-- security.py `JWTManager._load_key` (lines 53–58): check existence, then
`read_bytes` — the bytes are returned unparsed.  Paired with the list of
filesystem reads performed. -/
def load_key (fs : FileSystem) (key_path : String) :
    Except KeyLoadError FileContent × List Effect :=
  match fs key_path with
  | none => (.error .keyNotFound, [])
  | some content => (.ok content, [.readFile key_path])

/-- security.py `JWTManager._load_private_key` (lines 60–103): check
existence; resolve the passphrase from the `password` argument or, when that
is `None`, from the `JWT_PRIVATE_KEY_PASSWORD` environment variable, failing
with the missing-passphrase `ValueError` when both are absent; then read and
decrypt the key, converting a decryption `ValueError` into the
failed-to-decrypt `ValueError`.  Paired with the I/O effects performed. -/
def load_private_key (fs : FileSystem) (env : Option String) (key_path : String)
    (password : Option String) : Except KeyLoadError Nat × List Effect :=
  match fs key_path with
  | none => (.error .keyNotFound, [])
  | some content =>
    match (match password with | some p => some p | none => env) with
    | none => (.error .missingPassphrase, [])
    | some pw =>
      match load_pem_private_key content pw with
      | .ok k => (.ok k, [.readFile key_path, .decryptPrivateKey])
      | .error _ => (.error .keyDecryptionFailed, [.readFile key_path, .decryptPrivateKey])

/-- security.py `JWTManager.__init__` (lines 39–51): load and decrypt the
private key, then load the public key.  `env` is the value of the
`JWT_PRIVATE_KEY_PASSWORD` environment variable. -/
def init (fs : FileSystem) (env : Option String) (private_key_path public_key_path : String)
    (private_key_password : Option String) : Except KeyLoadError JWTManager × List Effect :=
  match load_private_key fs env private_key_path private_key_password with
  | (.error e, fx) => (.error e, fx)
  | (.ok k, fx) =>
    match load_key fs public_key_path with
    | (.error e, fx2) => (.error e, fx ++ fx2)
    | (.ok pub, fx2) => (.ok ⟨k, pub⟩, fx ++ fx2)

/-- The expiry timestamp computed by `create_access_token` (lines 117–120):
`now + expires_delta` when a truthy `expires_delta` is passed, else the
15-minute default.  Python truthiness makes `timedelta(0)` fall through to
the default branch, exactly like `None`. -/
def expireOf (expires_delta : Option Nat) (now : Nat) : Nat :=
  match expires_delta with
  | some d => if d = 0 then now + 15 * 60 else now + d
  | none => now + 15 * 60

/-- security.py `JWTManager.create_access_token` (lines 105–129): build the
payload with `exp`, `iat`, and `sub = str(subject)` (the identity on the
string `subject`), and sign it with the private key. -/
def create_access_token (m : JWTManager) (subject : List Nat)
    (expires_delta : Option Nat) (now : Nat) : EncodedToken :=
  .signed ⟨some subject, some now, some (expireOf expires_delta now)⟩ m.private_key

/-- security.py `JWTManager.decode_token` (lines 131–143):
`jwt.decode(token, self._public_key, algorithms=[self.algorithm])`. -/
def decode_token (m : JWTManager) (token : EncodedToken) (now : Nat) :
    Except JwtError TokenPayload :=
  jwtDecode token m.public_key now

end JWTManager

/-- config.py `Settings` fields consumed by the JWT subsystem. -/
structure Settings where
  jwt_private_key_path : String
  jwt_public_key_path : String
  jwt_private_key_password : Option String

/-- security.py `get_jwt_manager` (lines 146–152): construct a fresh
`JWTManager` from the settings — the body is a bare constructor call with no
caching of the instance (only `get_settings` itself is `lru_cache`d). -/
def get_jwt_manager (fs : FileSystem) (env : Option String) (s : Settings) :
    Except KeyLoadError JWTManager × List Effect :=
  JWTManager.init fs env s.jwt_private_key_path s.jwt_public_key_path
    s.jwt_private_key_password

/-! ## Authentication gate (auth.py) and boundary error handlers
(error_handler.py, exceptions.py) -/

/-- models/user.py `User` fields consumed by the authentication gate. -/
structure User where
  id : Int
  is_active : Bool
  deriving DecidableEq, Repr

/-- The exceptions that can escape `get_current_user`, by the Python class
that the boundary's handler registry dispatches on:
`UnauthorizedError` (an `AppException` with `status_code = 401`) carrying its
message; `SQLAlchemyError` raised by the database query; the `ValueError`
from `int(user_id)`; an uncaught key-loading exception from
`get_jwt_manager` (`FileNotFoundError`/`ValueError`); and PyJWT's
`InvalidKeyError`, which the `except jwt.InvalidTokenError` clause does not
catch. -/
inductive Exc where
  | unauthorized (message : String)
  | sqlalchemyError
  | valueError
  | keyLoad (e : KeyLoadError)
  | invalidKeyError
  deriving DecidableEq, Repr

/-- One authenticated request: the bearer token extracted by `HTTPBearer`,
the current time, and the database as a lookup function — `.error ()` models
a `SQLAlchemyError` raised by `db.execute`, `.ok none` a query returning no
row. -/
structure AuthRequest where
  token : EncodedToken
  now : Nat
  db : Int → Except Unit (Option User)

/-- auth.py `get_current_user` (lines 22–65), with its exact control flow:
inside the `try`, construct the manager, decode the token, and check the
`sub` claim — the `UnauthorizedError` raised for a missing `sub` is not a
PyJWT exception, so it escapes the `except` clauses, as do key-loading
errors; `jwt.ExpiredSignatureError` and `jwt.InvalidTokenError` map to
`UnauthorizedError` with distinct messages.  Then `int(user_id)` (whose
`ValueError` nothing catches), the database query (whose `SQLAlchemyError`
nothing catches), the not-found check and the active check.  The second
component is the key-loading effects the call performed. -/
def get_current_user (fs : FileSystem) (env : Option String) (s : Settings)
    (r : AuthRequest) : Except Exc User × List Effect :=
  ((match (get_jwt_manager fs env s).1 with
    | .error e => .error (.keyLoad e)
    | .ok m =>
      match m.decode_token r.token r.now with
      | .error .expiredSignature => .error (.unauthorized "Token has expired")
      | .error .invalidToken => .error (.unauthorized "Invalid authentication token")
      | .error .invalidKey => .error .invalidKeyError
      | .ok payload =>
        match payload.sub with
        | none => .error (.unauthorized "Invalid authentication token")
        | some user_id =>
          match pyInt user_id with
          | none => .error .valueError
          | some uid =>
            match r.db uid with
            | .error _ => .error .sqlalchemyError
            | .ok none => .error (.unauthorized "User not found")
            | .ok (some user) =>
              if user.is_active then .ok user
              else .error (.unauthorized "User account is inactive")),
   (get_jwt_manager fs env s).2)

/-- The outward-facing JSON error body produced by
`create_error_response` in error_handler.py, restricted to the fields the
claims mention. -/
structure ErrorResponse where
  status_code : Nat
  message : String
  errorType : String
  deriving DecidableEq, Repr

/-- error_handler.py `create_error_response` (lines 17–38): the `type` field
is `client_error` for 4xx and `server_error` otherwise. -/
def create_error_response (status_code : Nat) (message : String) : ErrorResponse :=
  ⟨status_code, message,
    if 400 ≤ status_code && status_code < 500 then "client_error" else "server_error"⟩

/-- The boundary's handler registry (main.py lines 71–74 and
error_handler.py): `UnauthorizedError` is an `AppException` with
`status_code = 401`, handled by `app_exception_handler`; `SQLAlchemyError`
by `sqlalchemy_exception_handler` (500, Database error occurred); every
other uncaught exception by `generic_exception_handler` (500, An unexpected
error occurred). -/
def handleException : Exc → ErrorResponse
  | .unauthorized message => create_error_response 401 message
  | .sqlalchemyError => create_error_response 500 "Database error occurred"
  | .valueError => create_error_response 500 "An unexpected error occurred"
  | .keyLoad _ => create_error_response 500 "An unexpected error occurred"
  | .invalidKeyError => create_error_response 500 "An unexpected error occurred"

/-- The outward response for one request through the authentication gate:
the error body when authentication failed, `none` when it succeeded (the
route then proceeds). -/
def requestResponse (fs : FileSystem) (env : Option String) (s : Settings)
    (r : AuthRequest) : Option ErrorResponse :=
  match (get_current_user fs env s r).1 with
  | .error e => some (handleException e)
  | .ok _ => none

/-- A process serving a list of authenticated requests in sequence: the
key-loading effects it performs are those of each `get_current_user` call in
turn (there is no module-level `JWTManager` instance in security.py to share
between calls). -/
def serveEffects (fs : FileSystem) (env : Option String) (s : Settings)
    (requests : List AuthRequest) : List Effect :=
  (requests.map (fun r => (get_current_user fs env s r).2)).flatten

/-- Number of private-key decryption operations in an effect trace. -/
def countDecrypt : List Effect → Nat
  | [] => 0
  | .decryptPrivateKey :: fx => countDecrypt fx + 1
  | .readFile _ :: fx => countDecrypt fx

/-! ## Concrete fixtures used to evaluate the theorems -/

/-- A filesystem holding a matching RSA key pair (identifier 7): the private
key at path `p` encrypted with passphrase `secret`, the public key at `q`. -/
def fsEx : FileSystem := fun path =>
  if path = "p" then some (.privatePem 7 "secret")
  else if path = "q" then some (.publicPem 7)
  else none

/-- Settings pointing at the fixture key pair, with the passphrase supplied
directly. -/
def settingsEx : Settings := ⟨"p", "q", some "secret"⟩

/-- The manager that `get_jwt_manager` constructs from the fixtures. -/
def mEx : JWTManager := ⟨7, .publicPem 7⟩

/-- A database in which every id resolves to an active user. -/
def dbAllActive : Int → Except Unit (Option User) := fun i => .ok (some ⟨i, true⟩)

/-- A request carrying a token for subject `1` that is valid at time 10. -/
def reqOk : AuthRequest := ⟨.signed ⟨some [49], some 0, some 900⟩ 7, 10, dbAllActive⟩

/-! ## Claims -/

/-- C1: for every subject string `s` and every ttl `t > 0`, decoding the
token produced by `create_access_token s t` against the matching public key
at the unchanged current time succeeds, and the returned claims have
`sub = str(s) = s`. -/
theorem C1_issue_then_verify (m : JWTManager) (s : List Nat) (t now : Nat)
    (hm : m.public_key = .publicPem m.private_key) (ht : 0 < t) :
    ∃ p : TokenPayload,
      m.decode_token (m.create_access_token s (some t) now) now = .ok p ∧
      p.sub = some s := by
  refine ⟨⟨some s, some now, some (now + t)⟩, ?_, rfl⟩
  have hne : t ≠ 0 := Nat.pos_iff_ne_zero.mp ht
  have hlt : ¬ (now + t ≤ now) := by omega
  simp [JWTManager.decode_token, JWTManager.create_access_token, jwtDecode, hm,
    JWTManager.expireOf, hne, hlt]

/-- Witness for C1 at subject `42`, ttl 900 s, issuance time 0. -/
theorem C1_witness :
    ∃ p : TokenPayload,
      mEx.decode_token (mEx.create_access_token [52, 50] (some 900) 0) 0 = .ok p ∧
      p.sub = some [52, 50] :=
  C1_issue_then_verify mEx [52, 50] 900 0 rfl (by decide)

/-- C9: once current time advances past the token's embedded expiry, decoding
a token issued for any subject and ttl against the matching public key fails
with `ExpiredSignatureError` (not `InvalidTokenError`, not a crash); and when
no ttl is supplied, the 15-minute default puts the embedded expiry at
issuance time + 15 minutes. -/
theorem C9_expiry (m : JWTManager) (s : List Nat) (dt : Option Nat) (now now2 : Nat)
    (hm : m.public_key = .publicPem m.private_key)
    (hpast : JWTManager.expireOf dt now < now2) :
    m.decode_token (m.create_access_token s dt now) now2 = .error .expiredSignature ∧
    m.create_access_token s none now =
      .signed ⟨some s, some now, some (now + 15 * 60)⟩ m.private_key := by
  constructor
  · have hle : JWTManager.expireOf dt now ≤ now2 := Nat.le_of_lt hpast
    simp [JWTManager.decode_token, JWTManager.create_access_token, jwtDecode, hm, hle]
  · rfl

/-- Witness for C9 at subject `42`, default ttl, issuance time 0, decode
time 1000 (past the 900-second expiry). -/
theorem C9_witness :
    mEx.decode_token (mEx.create_access_token [52, 50] none 0) 1000 =
        .error .expiredSignature ∧
    mEx.create_access_token [52, 50] none 0 =
      .signed ⟨some [52, 50], some 0, some (0 + 15 * 60)⟩ mEx.private_key :=
  C9_expiry mEx [52, 50] none 0 1000 rfl (by decide)

/-- C2 counterexample: a signature-valid, unexpired token whose payload has
no `sub` claim.  `decode_token` returns the payload successfully — it does
not fail with `InvalidTokenError` — because `jwt.decode` is called with no
required-claims option. -/
theorem C2_counterexample :
    mEx.decode_token (.signed ⟨none, some 0, some 1000⟩ 7) 10 =
        .ok ⟨none, some 0, some 1000⟩ ∧
    mEx.decode_token (.signed ⟨none, some 0, some 1000⟩ 7) 10 ≠
        .error .invalidToken := by
  constructor
  · rfl
  · decide

/-- C2 amended: `decode_token` succeeds on any signature-valid unexpired
token regardless of the `sub` claim; the missing-`sub` failure is produced
one layer up, in `get_current_user`, which raises `UnauthorizedError` with
the same message used for `InvalidTokenError` (`Invalid authentication
token`), and that failure remains distinguishable from the expired-token
failure (`Token has expired`). -/
theorem C2_missing_sub (m : JWTManager) (p : TokenPayload) (k now e : Nat)
    (fs : FileSystem) (env : Option String) (s : Settings) (r : AuthRequest)
    (hm : m.public_key = .publicPem k) (hexp : p.exp = some e) (hlt : now < e)
    (hjm : (get_jwt_manager fs env s).1 = .ok m)
    (hdec : m.decode_token r.token r.now = .ok p) (hsub : p.sub = none) :
    m.decode_token (.signed p k) now = .ok p ∧
    (get_current_user fs env s r).1 =
      .error (.unauthorized "Invalid authentication token") ∧
    Exc.unauthorized "Invalid authentication token" ≠
      Exc.unauthorized "Token has expired" := by
  refine ⟨?_, ?_, by decide⟩
  · have hle : ¬ (e ≤ now) := by omega
    simp [JWTManager.decode_token, jwtDecode, hm, hexp, hle]
  · simp [get_current_user, hjm, hdec, hsub]

/-- Witness for C2 amended, at the concrete subless token of the
counterexample scenario. -/
theorem C2_missing_sub_witness :
    mEx.decode_token (.signed ⟨none, some 0, some 1000⟩ 7) 10 =
        .ok ⟨none, some 0, some 1000⟩ ∧
    (get_current_user fsEx none settingsEx
        ⟨.signed ⟨none, some 0, some 1000⟩ 7, 10, dbAllActive⟩).1 =
      .error (.unauthorized "Invalid authentication token") ∧
    Exc.unauthorized "Invalid authentication token" ≠
      Exc.unauthorized "Token has expired" :=
  C2_missing_sub mEx ⟨none, some 0, some 1000⟩ 7 10 1000 fsEx none settingsEx
    ⟨.signed ⟨none, some 0, some 1000⟩ 7, 10, dbAllActive⟩
    rfl rfl (by decide) (by decide) rfl rfl

/-- C3 counterexample: verifying the password `pw` against the malformed
stored-hash string `x` raises passlib's `UnknownHashError` — it does not
return `false`.  `verify_password` contains no exception handling, so the
error propagates to its caller. -/
theorem C3_counterexample :
    verify_password [112, 119] (.unidentified "x") = .error .unknownHash ∧
    verify_password [112, 119] (.unidentified "x") ≠ .ok false := by
  constructor
  · rfl
  · decide

/-- C3 amended: `verify_password` never throws only when the stored hash is
identified as a well-formed bcrypt hash, in which case it returns a boolean;
on any stored-hash string that passlib cannot identify it propagates
`UnknownHashError` (a `ValueError`) instead of returning `false`. -/
theorem C3_malformed_hash_raises :
    (∀ (p : List Nat) (r : BcryptRecord), ∃ b : Bool,
        verify_password p (.bcrypt r) = .ok b) ∧
    (∀ (p : List Nat) (raw : String),
        verify_password p (.unidentified raw) = .error .unknownHash) := by
  constructor
  · intro p r
    exact ⟨_, rfl⟩
  · intro p raw
    rfl

/-- C5: the 72-byte truncation rule is applied identically on the hash and
verify paths: any two passwords that agree on their first 72 UTF-8 bytes
cross-verify against each other's hash, and in particular every password —
also one longer than 72 bytes — verifies against its own hash. -/
theorem C5_truncation_cross_verify :
    (∀ (p1 p2 : List Nat) (salt cost : Nat),
        (utf8Encode p1).take 72 = (utf8Encode p2).take 72 →
        verify_password p1 (hash_password p2 salt cost) = .ok true ∧
        verify_password p2 (hash_password p1 salt cost) = .ok true) ∧
    (∀ (p : List Nat) (salt cost : Nat),
        verify_password p (hash_password p salt cost) = .ok true) := by
  constructor
  · intro p1 p2 salt cost h
    constructor
    · simp [verify_password, hash_password, pwdContextVerify, pwdContextHash, h]
    · simp [verify_password, hash_password, pwdContextVerify, pwdContextHash, h]
  · intro p salt cost
    simp [verify_password, hash_password, pwdContextVerify, pwdContextHash]

/-- Witness for C5: two 73-character passwords that agree on their first 72
bytes and differ at byte 73 cross-verify against each other's hashes. -/
theorem C5_witness :
    (utf8Encode (List.replicate 72 97 ++ [98])).take 72 =
        (utf8Encode (List.replicate 72 97 ++ [99])).take 72 ∧
    verify_password (List.replicate 72 97 ++ [98])
        (hash_password (List.replicate 72 97 ++ [99]) 3 12) = .ok true ∧
    verify_password (List.replicate 72 97 ++ [99])
        (hash_password (List.replicate 72 97 ++ [98]) 3 12) = .ok true :=
  ⟨by decide,
   (C5_truncation_cross_verify.1 (List.replicate 72 97 ++ [98])
      (List.replicate 72 97 ++ [99]) 3 12 (by decide)).1,
   (C5_truncation_cross_verify.1 (List.replicate 72 97 ++ [98])
      (List.replicate 72 97 ++ [99]) 3 12 (by decide)).2⟩

/-- C6: `_load_private_key` fails with the missing-passphrase `ValueError`
exactly when the key file exists but neither the direct `password` argument
nor the `JWT_PRIVATE_KEY_PASSWORD` environment variable is set; it fails
with `FileNotFoundError` exactly when the key file does not exist (this
check runs first, so a missing file wins over a missing passphrase); a
decryption failure — wrong passphrase or data that is not an encrypted
private key — yields the failed-to-decrypt `ValueError`, a failure kind
distinct from `FileNotFoundError`. -/
theorem C6_key_load_errors (fs : FileSystem) (env : Option String) (path : String)
    (pw : Option String) :
    ((JWTManager.load_private_key fs env path pw).1 = .error .keyNotFound ↔
      fs path = none) ∧
    ((JWTManager.load_private_key fs env path pw).1 = .error .missingPassphrase ↔
      fs path ≠ none ∧ pw = none ∧ env = none) ∧
    (∀ (c : FileContent) (pwd : String), fs path = some c →
      (match pw with | some p => some p | none => env) = some pwd →
      load_pem_private_key c pwd = .error () →
      (JWTManager.load_private_key fs env path pw).1 = .error .keyDecryptionFailed) ∧
    KeyLoadError.keyDecryptionFailed ≠ KeyLoadError.keyNotFound := by
  refine ⟨?_, ?_, ?_, by decide⟩
  · cases hfs : fs path with
    | none => simp [JWTManager.load_private_key, hfs]
    | some c =>
      simp only [JWTManager.load_private_key, hfs]
      cases pw with
      | none =>
        cases env with
        | none => simp
        | some e =>
          cases hdec : load_pem_private_key c e <;> simp [hdec]
      | some p =>
        cases hdec : load_pem_private_key c p <;> simp [hdec]
  · cases hfs : fs path with
    | none => simp [JWTManager.load_private_key, hfs]
    | some c =>
      simp only [JWTManager.load_private_key, hfs]
      cases pw with
      | none =>
        cases env with
        | none => simp
        | some e =>
          cases hdec : load_pem_private_key c e <;> simp [hdec]
      | some p =>
        cases hdec : load_pem_private_key c p <;> simp [hdec]
  · intro c pwd hfs hpw hdec
    cases pw with
    | none =>
      cases env with
      | none => simp at hpw
      | some e =>
        simp at hpw
        subst hpw
        simp [JWTManager.load_private_key, hfs, hdec]
    | some p =>
      simp at hpw
      subst hpw
      simp [JWTManager.load_private_key, hfs, hdec]

/-- Witness for C6 on the fixture filesystem: wrong passphrase gives the
decryption failure, a missing file gives `FileNotFoundError`, and no
passphrase from either source gives the missing-passphrase error. -/
theorem C6_witness :
    (JWTManager.load_private_key fsEx none "p" (some "wrong")).1 =
        .error .keyDecryptionFailed ∧
    (JWTManager.load_private_key fsEx none "absent" none).1 = .error .keyNotFound ∧
    (JWTManager.load_private_key fsEx none "p" none).1 = .error .missingPassphrase :=
  ⟨(C6_key_load_errors fsEx none "p" (some "wrong")).2.2.1
      (.privatePem 7 "secret") "wrong" (by decide) rfl (by decide),
   ((C6_key_load_errors fsEx none "absent" none).1).mpr (by decide),
   ((C6_key_load_errors fsEx none "p" none).2.1).mpr ⟨by decide, rfl, rfl⟩⟩

/-- C7: when the database query raised by the authentication gate throws
(`SQLAlchemyError`), `get_current_user` does not catch it — the lookup-layer
failure propagates as `SQLAlchemyError`, which the boundary's
`sqlalchemy_exception_handler` maps to a 500 `server_error` response, not to
the `UnauthorizedError` class. -/
theorem C7_lookup_failure_propagates (fs : FileSystem) (env : Option String)
    (s : Settings) (m : JWTManager) (r : AuthRequest) (p : TokenPayload)
    (sub : List Nat) (uid : Int)
    (hjm : (get_jwt_manager fs env s).1 = .ok m)
    (hdec : m.decode_token r.token r.now = .ok p)
    (hsub : p.sub = some sub) (hint : pyInt sub = some uid)
    (hdb : r.db uid = .error ()) :
    (get_current_user fs env s r).1 = .error .sqlalchemyError ∧
    handleException .sqlalchemyError =
      ⟨500, "Database error occurred", "server_error"⟩ ∧
    (∀ msg : String, Exc.sqlalchemyError ≠ .unauthorized msg) := by
  refine ⟨?_, rfl, by intro msg h; cases h⟩
  simp [get_current_user, hjm, hdec, hsub, hint, hdb]

/-- Witness for C7: a valid token for subject `1` over a database whose
lookup always raises. -/
theorem C7_witness :
    (get_current_user fsEx none settingsEx
        ⟨.signed ⟨some [49], some 0, some 900⟩ 7, 10, fun _ => .error ()⟩).1 =
      .error .sqlalchemyError ∧
    handleException .sqlalchemyError =
      ⟨500, "Database error occurred", "server_error"⟩ ∧
    (∀ msg : String, Exc.sqlalchemyError ≠ .unauthorized msg) :=
  C7_lookup_failure_propagates fsEx none settingsEx mEx
    ⟨.signed ⟨some [49], some 0, some 900⟩ 7, 10, fun _ => .error ()⟩
    ⟨some [49], some 0, some 900⟩ [49] 1 (by decide) rfl rfl (by decide) rfl

/-- C10: a token that passes signature and expiry verification but whose
`sub` claim is a non-empty string that `int` cannot parse makes
`get_current_user` raise the uncaught `ValueError` from `int(user_id)`,
which surfaces through `generic_exception_handler` as a 500 `server_error`,
not as the `UnauthorizedError` class. -/
theorem C10_non_numeric_sub (fs : FileSystem) (env : Option String)
    (s : Settings) (m : JWTManager) (r : AuthRequest) (p : TokenPayload)
    (sub : List Nat)
    (hjm : (get_jwt_manager fs env s).1 = .ok m)
    (hdec : m.decode_token r.token r.now = .ok p)
    (hsub : p.sub = some sub) (hne : sub ≠ []) (hint : pyInt sub = none) :
    (get_current_user fs env s r).1 = .error .valueError ∧
    handleException .valueError =
      ⟨500, "An unexpected error occurred", "server_error"⟩ ∧
    (∀ msg : String, Exc.valueError ≠ .unauthorized msg) := by
  refine ⟨?_, rfl, by intro msg h; cases h⟩
  simp [get_current_user, hjm, hdec, hsub, hint]

/-- Witness for C10 at the non-numeric subject `abc`. -/
theorem C10_witness :
    (get_current_user fsEx none settingsEx
        ⟨.signed ⟨some [97, 98, 99], some 0, some 900⟩ 7, 10, dbAllActive⟩).1 =
      .error .valueError ∧
    handleException .valueError =
      ⟨500, "An unexpected error occurred", "server_error"⟩ ∧
    (∀ msg : String, Exc.valueError ≠ .unauthorized msg) :=
  C10_non_numeric_sub fsEx none settingsEx mEx
    ⟨.signed ⟨some [97, 98, 99], some 0, some 900⟩ 7, 10, dbAllActive⟩
    ⟨some [97, 98, 99], some 0, some 900⟩ [97, 98, 99]
    (by decide) rfl rfl (by decide) (by decide)

/-- C8 counterexample: two different authentication failure modes — an
expired token versus a valid token whose subject has no user row — both
produce 401 responses, but the outward response bodies differ (`Token has
expired` versus `User not found`), so the distinguishing reason is carried
in the outward-facing response, not only internally. -/
theorem C8_counterexample :
    requestResponse fsEx none settingsEx
        ⟨.signed ⟨some [49], some 0, some 5⟩ 7, 10, dbAllActive⟩ =
      some ⟨401, "Token has expired", "client_error"⟩ ∧
    requestResponse fsEx none settingsEx
        ⟨.signed ⟨some [49], some 0, some 900⟩ 7, 10, fun _ => .ok none⟩ =
      some ⟨401, "User not found", "client_error"⟩ ∧
    (some (ErrorResponse.mk 401 "Token has expired" "client_error") ≠
      some (ErrorResponse.mk 401 "User not found" "client_error")) := by
  refine ⟨rfl, rfl, by decide⟩

/-- C8 amended: every authentication failure mode of `get_current_user` —
expired token, invalid token, missing `sub`, subject without a user row, and
inactive account — raises the single class `UnauthorizedError`, which the
boundary maps to a 401 `client_error` response; the distinguishing reason,
however, is carried in the outward response message, not only internally. -/
theorem C8_all_auth_failures_401 (fs : FileSystem) (env : Option String)
    (s : Settings) (m : JWTManager) (r : AuthRequest)
    (hjm : (get_jwt_manager fs env s).1 = .ok m) :
    (m.decode_token r.token r.now = .error .expiredSignature →
      (get_current_user fs env s r).1 = .error (.unauthorized "Token has expired")) ∧
    (m.decode_token r.token r.now = .error .invalidToken →
      (get_current_user fs env s r).1 =
        .error (.unauthorized "Invalid authentication token")) ∧
    (∀ p : TokenPayload, m.decode_token r.token r.now = .ok p → p.sub = none →
      (get_current_user fs env s r).1 =
        .error (.unauthorized "Invalid authentication token")) ∧
    (∀ (p : TokenPayload) (sub : List Nat) (uid : Int),
      m.decode_token r.token r.now = .ok p → p.sub = some sub →
      pyInt sub = some uid → r.db uid = .ok none →
      (get_current_user fs env s r).1 = .error (.unauthorized "User not found")) ∧
    (∀ (p : TokenPayload) (sub : List Nat) (uid : Int) (u : User),
      m.decode_token r.token r.now = .ok p → p.sub = some sub →
      pyInt sub = some uid → r.db uid = .ok (some u) → u.is_active = false →
      (get_current_user fs env s r).1 =
        .error (.unauthorized "User account is inactive")) ∧
    (∀ msg : String,
      handleException (.unauthorized msg) = ⟨401, msg, "client_error"⟩) := by
  refine ⟨?_, ?_, ?_, ?_, ?_, fun msg => rfl⟩
  · intro hdec
    simp [get_current_user, hjm, hdec]
  · intro hdec
    simp [get_current_user, hjm, hdec]
  · intro p hdec hsub
    simp [get_current_user, hjm, hdec, hsub]
  · intro p sub uid hdec hsub hint hdb
    simp [get_current_user, hjm, hdec, hsub, hint, hdb]
  · intro p sub uid u hdec hsub hint hdb hact
    simp [get_current_user, hjm, hdec, hsub, hint, hdb, hact]

/-- Witness for C8 amended: all five failure modes evaluated on concrete
requests against the fixture key pair. -/
theorem C8_witness :
    (get_current_user fsEx none settingsEx
        ⟨.signed ⟨some [49], some 0, some 5⟩ 7, 10, dbAllActive⟩).1 =
      .error (.unauthorized "Token has expired") ∧
    (get_current_user fsEx none settingsEx
        ⟨.malformed "zzz", 10, dbAllActive⟩).1 =
      .error (.unauthorized "Invalid authentication token") ∧
    (get_current_user fsEx none settingsEx
        ⟨.signed ⟨none, some 0, some 900⟩ 7, 10, dbAllActive⟩).1 =
      .error (.unauthorized "Invalid authentication token") ∧
    (get_current_user fsEx none settingsEx
        ⟨.signed ⟨some [49], some 0, some 900⟩ 7, 10, fun _ => .ok none⟩).1 =
      .error (.unauthorized "User not found") ∧
    (get_current_user fsEx none settingsEx
        ⟨.signed ⟨some [49], some 0, some 900⟩ 7, 10,
          fun i => .ok (some ⟨i, false⟩)⟩).1 =
      .error (.unauthorized "User account is inactive") ∧
    handleException (.unauthorized "Token has expired") =
      ⟨401, "Token has expired", "client_error"⟩ :=
  ⟨(C8_all_auth_failures_401 fsEx none settingsEx mEx
      ⟨.signed ⟨some [49], some 0, some 5⟩ 7, 10, dbAllActive⟩ (by decide)).1
      (by decide),
   (C8_all_auth_failures_401 fsEx none settingsEx mEx
      ⟨.malformed "zzz", 10, dbAllActive⟩ (by decide)).2.1 (by decide),
   (C8_all_auth_failures_401 fsEx none settingsEx mEx
      ⟨.signed ⟨none, some 0, some 900⟩ 7, 10, dbAllActive⟩ (by decide)).2.2.1
      ⟨none, some 0, some 900⟩ (by decide) rfl,
   (C8_all_auth_failures_401 fsEx none settingsEx mEx
      ⟨.signed ⟨some [49], some 0, some 900⟩ 7, 10, fun _ => .ok none⟩
      (by decide)).2.2.2.1
      ⟨some [49], some 0, some 900⟩ [49] 1 (by decide) rfl (by decide) rfl,
   (C8_all_auth_failures_401 fsEx none settingsEx mEx
      ⟨.signed ⟨some [49], some 0, some 900⟩ 7, 10, fun i => .ok (some ⟨i, false⟩)⟩
      (by decide)).2.2.2.2.1
      ⟨some [49], some 0, some 900⟩ [49] 1 ⟨1, false⟩ (by decide) rfl (by decide) rfl
      rfl,
   (C8_all_auth_failures_401 fsEx none settingsEx mEx
      ⟨.signed ⟨some [49], some 0, some 5⟩ 7, 10, dbAllActive⟩
      (by decide)).2.2.2.2.2 "Token has expired"⟩

/-- Helper: `countDecrypt` distributes over trace concatenation. -/
theorem countDecrypt_append (a b : List Effect) :
    countDecrypt (a ++ b) = countDecrypt a + countDecrypt b := by
  induction a with
  | nil => simp [countDecrypt]
  | cons e fx ih =>
    cases e <;> simp [countDecrypt, ih] <;> omega

/-- C4 counterexample: a process that serves two authenticated requests
against the fixture key configuration performs two private-key decryptions —
`get_jwt_manager` constructs a fresh `JWTManager` (reloading and
re-decrypting the keys) on every call from `get_current_user`, so
construction is not limited to once per process lifetime. -/
theorem C4_counterexample :
    countDecrypt (serveEffects fsEx none settingsEx [reqOk, reqOk]) = 2 ∧
    ¬ countDecrypt (serveEffects fsEx none settingsEx [reqOk, reqOk]) ≤ 1 := by
  constructor
  · rfl
  · decide

/-- C4 amended: the Token Manager is constructed once per call, not once per
process: whenever the private-key file exists and a passphrase is resolvable
(so that the decryption step is reached), a process serving `n`
authenticated requests performs exactly `n` private-key decryptions — one
per request — because `get_jwt_manager` has no cache (only `get_settings`
is `lru_cache`d) and `get_current_user` calls it anew for each request. -/
theorem C4_construction_per_request (fs : FileSystem) (env : Option String)
    (s : Settings) (c : FileContent) (pwd : String) (rs : List AuthRequest)
    (hfs : fs s.jwt_private_key_path = some c)
    (hpw : (match s.jwt_private_key_password with
            | some p => some p | none => env) = some pwd) :
    countDecrypt (serveEffects fs env s rs) = rs.length := by
  have hone : ∀ r : AuthRequest, countDecrypt (get_current_user fs env s r).2 = 1 := by
    intro r
    cases hdec : load_pem_private_key c pwd with
    | ok k =>
      cases hpub : fs s.jwt_public_key_path with
      | none =>
        simp [get_current_user, get_jwt_manager, JWTManager.init,
          JWTManager.load_private_key, JWTManager.load_key, hfs, hpw, hdec, hpub,
          countDecrypt]
      | some cpub =>
        simp [get_current_user, get_jwt_manager, JWTManager.init,
          JWTManager.load_private_key, JWTManager.load_key, hfs, hpw, hdec, hpub,
          countDecrypt, countDecrypt_append]
    | error e =>
      simp [get_current_user, get_jwt_manager, JWTManager.init,
        JWTManager.load_private_key, JWTManager.load_key, hfs, hpw, hdec,
        countDecrypt]
  induction rs with
  | nil => simp [serveEffects, countDecrypt]
  | cons r rest ih =>
    have hcons : serveEffects fs env s (r :: rest) =
        (get_current_user fs env s r).2 ++ serveEffects fs env s rest := by
      simp [serveEffects]
    rw [hcons, countDecrypt_append, hone r, ih, List.length_cons]
    omega

/-- Witness for C4 amended: three requests against the fixture configuration
give exactly three decryptions. -/
theorem C4_witness :
    countDecrypt (serveEffects fsEx none settingsEx [reqOk, reqOk, reqOk]) = 3 :=
  C4_construction_per_request fsEx none settingsEx (.privatePem 7 "secret") "secret"
    [reqOk, reqOk, reqOk] (by decide) rfl
